import Mathlib

/-!
Shallow embedding of `src/gesture_recognizer.py` (class `GestureRecognizer`)
and verification of its specification.

Modelling choices:
* A tracked position is a pair of integers (`Point`), matching the
  per-tick contract `Optional[Tuple[int, int]]`.
* `collections.deque(maxlen=n)` is a `List Point` kept oldest-first,
  with `dequeAppend` implementing the bounded append (at capacity the
  oldest entries are dropped; `deque(maxlen=0)` keeps nothing).
* Thresholds are integers; the comparison
  `np.sqrt(dx**2 + dy**2) < threshold` is decided exactly over the
  integers by `sqrtLt` (for `s ≥ 0`: `√s < t ↔ 0 < t ∧ s < t²`),
  proved against `Real.sqrt` in `sqrtLt_correct`.
* Python method bodies that mutate `self` become functions from the
  state to (result, new state).
* `update` reads the unqualified name `gesture_cooldown` (line 18 of
  the source), which is bound neither locally nor at module level, so
  the call raises `NameError` after the history append has already
  happened.  `update` therefore returns the state as mutated so far
  together with an `Except` describing the raised error.
-/

namespace AirSketch

/-- A 2D point in pixel coordinates, `Tuple[int, int]` in the source. -/
structure Point where
  x : Int
  y : Int
deriving DecidableEq, Repr

/-- The state of `GestureRecognizer`: the four fields set in `__init__`,
plus the deque capacity `history_size` (the `maxlen` of
`self.position_history`). -/
structure GestureRecognizer where
  history_size : Nat
  position_history : List Point
  last_gesture : Option String
  gesture_cooldown : Nat
  cooldown_frames : Nat
deriving DecidableEq, Repr

/-- A raised Python exception, as observable by the caller. -/
inductive PyError where
  | nameError (msg : String)
deriving DecidableEq, Repr

/-- Constructor `__init__(self, history_size=10)`: empty history with
capacity `history_size`, `last_gesture = None`, `gesture_cooldown = 0`,
`cooldown_frames = 15`.  `history_size` is the constructor's only
parameter (its Python default is 10); `cooldown_frames` is assigned the
literal 15. -/
def GestureRecognizer.init (history_size : Nat) : GestureRecognizer :=
  { history_size := history_size
    position_history := []
    last_gesture := none
    gesture_cooldown := 0
    cooldown_frames := 15 }

/-- Bounded append `deque(maxlen=m).append p`: append, then drop from the front anything
beyond the capacity `m`. -/
def dequeAppend (maxlen : Nat) (l : List Point) (p : Point) : List Point :=
  let l2 := l ++ [p]
  if maxlen < l2.length then l2.drop (l2.length - maxlen) else l2

/-- Method `update(self, position)`.  `if position:` — `None` is falsy and a
2-tuple is always truthy, so exactly the present positions are appended
(including the origin `(0, 0)`).  The following line,
`if gesture_cooldown > 0:`, reads the unqualified name
`gesture_cooldown`, which is not defined locally, in the module
`gesture_recognizer`, or in builtins, so every call raises `NameError`
at that point; the append above has already mutated the deque.  The
result is the state as mutated before the raise, and the raised error. -/
def GestureRecognizer.update (s : GestureRecognizer) (position : Option Point) :
    GestureRecognizer × Except PyError Unit :=
  let s1 := match position with
    | some p =>
        { s with position_history := dequeAppend s.history_size s.position_history p }
    | none => s
  (s1, Except.error (PyError.nameError "name gesture_cooldown is not defined"))

/-- Modelled from the spec: the intended `update` of §4.1/§7 — the
decrement bound to the instance's own `gesture_cooldown` field ("if
`gesture_cooldown` > 0, decrement by 1", after the conditional append).
The source's `update` instead reads an unbound global and raises. -/
def GestureRecognizer.updateIntended (s : GestureRecognizer) (position : Option Point) :
    GestureRecognizer :=
  let s1 := match position with
    | some p =>
        { s with position_history := dequeAppend s.history_size s.position_history p }
    | none => s
  if s1.gesture_cooldown > 0 then
    { s1 with gesture_cooldown := s1.gesture_cooldown - 1 }
  else s1

/-- Oldest entry `self.position_history[0]`; the default is never
reached because all uses are guarded by `len(...) >= 5`. -/
def oldest (l : List Point) : Point := l.headD ⟨0, 0⟩

/-- Newest entry `self.position_history[-1]`; the default is never
reached because all uses are guarded by `len(...) >= 5`. -/
def newest (l : List Point) : Point := l.getLastD ⟨0, 0⟩

/-- Displacement `dx = end[0] - start[0]` over the oldest/newest pair. -/
def GestureRecognizer.dxOf (s : GestureRecognizer) : Int :=
  (newest s.position_history).x - (oldest s.position_history).x

/-- Displacement `dy = end[1] - start[1]` over the oldest/newest pair. -/
def GestureRecognizer.dyOf (s : GestureRecognizer) : Int :=
  (newest s.position_history).y - (oldest s.position_history).y

/-- Comparison `np.sqrt(sq) < t` decided exactly over the integers: for `sq ≥ 0`,
`√sq < t` iff `0 < t` and `sq < t²` (see `sqrtLt_correct`). -/
def sqrtLt (sq t : Int) : Bool :=
  decide (0 < t ∧ sq < t * t)

/-- The `detected_direction` local of `detectSwipe`: `'right' if dx > 0
else 'left'` when `abs(dx) > abs(dy)`, otherwise `'down' if dy > 0 else
'up'`. -/
def GestureRecognizer.detectedDirection (s : GestureRecognizer) : String :=
  if |s.dxOf| > |s.dyOf| then
    if s.dxOf > 0 then "right" else "left"
  else
    if s.dyOf > 0 then "down" else "up"

/-- Method `detectSwipe(self, direction='any', threshold=100)`: `None` when the
history holds fewer than 5 samples, when the Euclidean displacement is
below `threshold`, when the requested direction is neither `'any'` nor
the detected one, or when the cooldown is positive; otherwise returns
the detected direction and resets the cooldown to `cooldown_frames`. -/
def GestureRecognizer.detectSwipe (s : GestureRecognizer) (direction : String)
    (threshold : Int) : Option String × GestureRecognizer :=
  if s.position_history.length < 5 then (none, s)
  else if sqrtLt (s.dxOf * s.dxOf + s.dyOf * s.dyOf) threshold then (none, s)
  else if direction = "any" ∨ direction = s.detectedDirection then
    if s.gesture_cooldown = 0 then
      (some s.detectedDirection, { s with gesture_cooldown := s.cooldown_frames })
    else (none, s)
  else (none, s)

/-- Method `detectPush(self, threshold=150)`: `False` under 5 samples; otherwise
true iff `dy > threshold` and the cooldown is 0, resetting the cooldown
on success. -/
def GestureRecognizer.detectPush (s : GestureRecognizer) (threshold : Int) :
    Bool × GestureRecognizer :=
  if s.position_history.length < 5 then (false, s)
  else if s.dyOf > threshold ∧ s.gesture_cooldown = 0 then
    (true, { s with gesture_cooldown := s.cooldown_frames })
  else (false, s)

/-- Method `detectPull(self, threshold=150)`: `False` under 5 samples; otherwise
true iff the displacement is `< -threshold` and the cooldown is 0,
resetting the cooldown on success.  The source names the displacement
`dx` but computes it as `end[1] - start[1]` — the vertical coordinate,
the same one `detectPush` uses. -/
def GestureRecognizer.detectPull (s : GestureRecognizer) (threshold : Int) :
    Bool × GestureRecognizer :=
  if s.position_history.length < 5 then (false, s)
  else if s.dyOf < -threshold ∧ s.gesture_cooldown = 0 then
    (true, { s with gesture_cooldown := s.cooldown_frames })
  else (false, s)

/-- A recognizer holding five samples ending in a 200-pixel rightward
displacement, cooldown 0 (the scenario of spec §8). -/
def sFiveR : GestureRecognizer :=
  { history_size := 10
    position_history := [⟨0, 0⟩, ⟨0, 0⟩, ⟨0, 0⟩, ⟨0, 0⟩, ⟨200, 0⟩]
    last_gesture := none
    gesture_cooldown := 0
    cooldown_frames := 15 }

/-- The same five samples with an active cooldown of 5 frames. -/
def sCool5 : GestureRecognizer :=
  { sFiveR with gesture_cooldown := 5 }

/-- Five samples with net displacement `dx = 50, dy = 50` (the axis
tie-break scenario of spec §8), cooldown 0. -/
def sTie : GestureRecognizer :=
  { history_size := 10
    position_history := [⟨0, 0⟩, ⟨0, 0⟩, ⟨0, 0⟩, ⟨0, 0⟩, ⟨50, 50⟩]
    last_gesture := none
    gesture_cooldown := 0
    cooldown_frames := 15 }

/-- Five identical samples: zero net displacement, cooldown 0. -/
def sStill : GestureRecognizer :=
  { history_size := 10
    position_history := [⟨7, 9⟩, ⟨7, 9⟩, ⟨7, 9⟩, ⟨7, 9⟩, ⟨7, 9⟩]
    last_gesture := none
    gesture_cooldown := 0
    cooldown_frames := 15 }

/-- Five samples with vertical displacement `+200`, cooldown 0. -/
def sPushUp : GestureRecognizer :=
  { history_size := 10
    position_history := [⟨0, 0⟩, ⟨0, 0⟩, ⟨0, 0⟩, ⟨0, 0⟩, ⟨0, 200⟩]
    last_gesture := none
    gesture_cooldown := 0
    cooldown_frames := 15 }

/-- Five samples with vertical displacement `-200`, cooldown 0. -/
def sPullUp : GestureRecognizer :=
  { history_size := 10
    position_history := [⟨0, 0⟩, ⟨0, 0⟩, ⟨0, 0⟩, ⟨0, 0⟩, ⟨0, -200⟩]
    last_gesture := none
    gesture_cooldown := 0
    cooldown_frames := 15 }

/-- Only two samples in history. -/
def sShort : GestureRecognizer :=
  { history_size := 10
    position_history := [⟨0, 0⟩, ⟨500, 500⟩]
    last_gesture := none
    gesture_cooldown := 0
    cooldown_frames := 15 }

/-- The integer test `sqrtLt` decides `Real.sqrt sq < t` exactly. -/
theorem sqrtLt_correct (sq t : Int) :
    (Real.sqrt sq < (t : ℝ)) ↔ sqrtLt sq t = true := by
  unfold sqrtLt
  simp only [decide_eq_true_eq]
  constructor
  · intro hlt
    have ht : (0 : ℝ) < (t : ℝ) := lt_of_le_of_lt (Real.sqrt_nonneg _) hlt
    have ht' : (0 : Int) < t := by exact_mod_cast ht
    refine ⟨ht', ?_⟩
    have h2 := (Real.sqrt_lt' ht).mp hlt
    have h3 : (sq : ℝ) < (t : ℝ) * (t : ℝ) := by nlinarith [h2]
    exact_mod_cast h3
  · rintro ⟨ht', hsq⟩
    have ht : (0 : ℝ) < (t : ℝ) := by exact_mod_cast ht'
    refine (Real.sqrt_lt' ht).mpr ?_
    have h3 : (sq : ℝ) < (t : ℝ) * (t : ℝ) := by exact_mod_cast hsq
    nlinarith [h3]

/-- C1: the source's `update` never decrements the instance cooldown —
every call raises `NameError` (line 18 reads the unbound name
`gesture_cooldown`), leaving `gesture_cooldown` unchanged instead of
decrementing it toward 0 as the claim states.  Evaluated at a state with
`gesture_cooldown = 5` and at a fresh recognizer. -/
theorem update_always_raises :
    (sCool5.update none).2
        = Except.error (PyError.nameError "name gesture_cooldown is not defined")
      ∧ (sCool5.update none).1.gesture_cooldown = 5
      ∧ ((GestureRecognizer.init 10).update none).2
        = Except.error (PyError.nameError "name gesture_cooldown is not defined") :=
  ⟨rfl, rfl, rfl⟩

/-- C2: every detector reports success only when `gesture_cooldown = 0`;
immediately after a successful detection the cooldown equals
`cooldown_frames`; and while the cooldown is positive every detector
returns its negative result. -/
theorem detectors_gated_by_cooldown (s : GestureRecognizer) (dir : String) (t : Int) :
    (∀ d, (s.detectSwipe dir t).1 = some d →
        s.gesture_cooldown = 0
          ∧ (s.detectSwipe dir t).2.gesture_cooldown = s.cooldown_frames)
      ∧ ((s.detectPush t).1 = true →
        s.gesture_cooldown = 0
          ∧ (s.detectPush t).2.gesture_cooldown = s.cooldown_frames)
      ∧ ((s.detectPull t).1 = true →
        s.gesture_cooldown = 0
          ∧ (s.detectPull t).2.gesture_cooldown = s.cooldown_frames)
      ∧ (0 < s.gesture_cooldown →
        (s.detectSwipe dir t).1 = none
          ∧ (s.detectPush t).1 = false ∧ (s.detectPull t).1 = false) := by
  unfold GestureRecognizer.detectSwipe GestureRecognizer.detectPush
    GestureRecognizer.detectPull
  split_ifs <;> simp_all

/-- C2 at concrete states: a successful swipe from cooldown 0 resets the
cooldown to `cooldown_frames`, and with cooldown 5 all detectors are
negative. -/
theorem detectors_gated_by_cooldown_witness :
    (sFiveR.gesture_cooldown = 0
        ∧ (sFiveR.detectSwipe "any" 100).2.gesture_cooldown = sFiveR.cooldown_frames)
      ∧ (0 < sCool5.gesture_cooldown
        ∧ ((sCool5.detectSwipe "any" 100).1 = none
            ∧ (sCool5.detectPush 100).1 = false ∧ (sCool5.detectPull 100).1 = false)) :=
  ⟨(detectors_gated_by_cooldown sFiveR "any" 100).1 "right" (by decide),
   ⟨by decide, (detectors_gated_by_cooldown sCool5 "any" 100).2.2.2 (by decide)⟩⟩

/-- C3: `update` with a present position — the origin included — appends
it as the newest entry (evicting the oldest exactly when the history is
at capacity), `update` with no position leaves the history untouched,
and the length never exceeds `history_size`; appending to the end of the
oldest-first list keeps the entries ordered by arrival. -/
theorem update_history_semantics (s : GestureRecognizer) (p : Point) (pos : Option Point)
    (hinv : s.position_history.length ≤ s.history_size) :
    (s.update none).1.position_history = s.position_history
      ∧ (s.position_history.length < s.history_size →
        (s.update (some p)).1.position_history = s.position_history ++ [p])
      ∧ (s.position_history.length = s.history_size → 0 < s.history_size →
        (s.update (some p)).1.position_history = s.position_history.tail ++ [p])
      ∧ (s.update pos).1.position_history.length ≤ s.history_size := by
  refine ⟨rfl, ?_, ?_, ?_⟩
  · intro hlt
    unfold GestureRecognizer.update dequeAppend
    simp only
    rw [if_neg]
    simp only [List.length_append, List.length_singleton]
    omega
  · intro hlen hpos
    unfold GestureRecognizer.update dequeAppend
    simp only
    rw [if_pos (by simp [List.length_append]; omega)]
    have hd : (s.position_history ++ [p]).length - s.history_size = 1 := by
      simp [List.length_append]; omega
    rw [hd, List.drop_append_of_le_length (by omega), List.drop_one]
  · rcases pos with _ | q
    · exact hinv
    · unfold GestureRecognizer.update dequeAppend
      simp only
      split_ifs with hcap
      · simp only [List.length_drop]
        omega
      · simp only [List.length_append, List.length_singleton] at hcap ⊢
        omega

/-- C3 at a concrete state: with five entries in a capacity-10 history,
updating with the origin `(0, 0)` appends it as the newest entry. -/
theorem update_history_semantics_witness :
    sFiveR.position_history.length ≤ sFiveR.history_size
      ∧ (sFiveR.update (some ⟨0, 0⟩)).1.position_history
        = sFiveR.position_history ++ [⟨0, 0⟩] :=
  ⟨by decide,
   (update_history_semantics sFiveR ⟨0, 0⟩ none (by decide)).2.1 (by decide)⟩

/-- C4: for a history of at least 5 samples whose displacement meets the
threshold, with cooldown 0 and no direction filter, the swipe
classification is horizontal (`right` if `dx > 0` else `left`) exactly
when `|dx| > |dy|` and vertical (`down` if `dy > 0` else `up`)
otherwise; in particular the tie `dx = dy = 50` classifies as `down`. -/
theorem swipe_axis_classification (s : GestureRecognizer) (t : Int)
    (h5 : 5 ≤ s.position_history.length)
    (hd : sqrtLt (s.dxOf * s.dxOf + s.dyOf * s.dyOf) t = false)
    (hc : s.gesture_cooldown = 0) :
    ((s.detectSwipe "any" t).1 = some "right" ↔ |s.dyOf| < |s.dxOf| ∧ 0 < s.dxOf)
      ∧ ((s.detectSwipe "any" t).1 = some "left" ↔ |s.dyOf| < |s.dxOf| ∧ s.dxOf ≤ 0)
      ∧ ((s.detectSwipe "any" t).1 = some "down" ↔ |s.dxOf| ≤ |s.dyOf| ∧ 0 < s.dyOf)
      ∧ ((s.detectSwipe "any" t).1 = some "up" ↔ |s.dxOf| ≤ |s.dyOf| ∧ s.dyOf ≤ 0)
      ∧ (s.dxOf = 50 → s.dyOf = 50 → (s.detectSwipe "any" t).1 = some "down") := by
  have hmain :
      ((s.detectSwipe "any" t).1 = some "right" ↔ |s.dyOf| < |s.dxOf| ∧ 0 < s.dxOf)
        ∧ ((s.detectSwipe "any" t).1 = some "left" ↔ |s.dyOf| < |s.dxOf| ∧ s.dxOf ≤ 0)
        ∧ ((s.detectSwipe "any" t).1 = some "down" ↔ |s.dxOf| ≤ |s.dyOf| ∧ 0 < s.dyOf)
        ∧ ((s.detectSwipe "any" t).1 = some "up" ↔ |s.dxOf| ≤ |s.dyOf| ∧ s.dyOf ≤ 0) := by
    unfold GestureRecognizer.detectSwipe
    rw [if_neg (by omega), if_neg (by simp [hd]), if_pos (Or.inl rfl), if_pos hc]
    unfold GestureRecognizer.detectedDirection
    split_ifs with habs hdx hdy <;> refine ⟨?_, ?_, ?_, ?_⟩ <;> simp <;> omega
  refine ⟨hmain.1, hmain.2.1, hmain.2.2.1, hmain.2.2.2, ?_⟩
  intro hx hy
  exact hmain.2.2.1.mpr ⟨by rw [hx, hy], by rw [hy]; norm_num⟩

/-- C4 at the tie scenario: `dx = dy = 50`, threshold 70 (met, since
`√5000 > 70`), cooldown 0 — the swipe classifies as `down`. -/
theorem swipe_axis_classification_witness :
    5 ≤ sTie.position_history.length
      ∧ sqrtLt (sTie.dxOf * sTie.dxOf + sTie.dyOf * sTie.dyOf) 70 = false
      ∧ sTie.gesture_cooldown = 0
      ∧ (sTie.detectSwipe "any" 70).1 = some "down" :=
  ⟨by decide, by decide, rfl,
   (swipe_axis_classification sTie 70 (by decide) (by decide) rfl).2.2.2.2
     (by decide) (by decide)⟩

/-- C5: push and pull both read the vertical coordinate of the shared
oldest/newest pair: with at least 5 samples and cooldown 0,
`detectPush t` succeeds exactly when `newest.y - oldest.y > t` and
`detectPull t` exactly when `newest.y - oldest.y < -t`; success resets
the cooldown to `cooldown_frames` and failure changes nothing. -/
theorem push_pull_share_vertical_axis (s : GestureRecognizer) (t : Int)
    (h5 : 5 ≤ s.position_history.length)
    (hc : s.gesture_cooldown = 0) :
    ((s.detectPush t).1 = true
        ↔ t < (newest s.position_history).y - (oldest s.position_history).y)
      ∧ ((s.detectPull t).1 = true
        ↔ (newest s.position_history).y - (oldest s.position_history).y < -t)
      ∧ ((s.detectPush t).1 = true →
        (s.detectPush t).2.gesture_cooldown = s.cooldown_frames)
      ∧ ((s.detectPull t).1 = true →
        (s.detectPull t).2.gesture_cooldown = s.cooldown_frames)
      ∧ ((s.detectPush t).1 = false → (s.detectPush t).2 = s)
      ∧ ((s.detectPull t).1 = false → (s.detectPull t).2 = s) := by
  have h5' : ¬ s.position_history.length < 5 := by omega
  unfold GestureRecognizer.detectPush GestureRecognizer.detectPull
    GestureRecognizer.dyOf
  rw [if_neg h5', if_neg h5']
  split_ifs with h1 h2 <;> simp <;> omega

/-- C5 at concrete states: vertical displacement `+200` triggers push
but not pull at threshold 150; vertical displacement `-200` triggers
pull. -/
theorem push_pull_share_vertical_axis_witness :
    (5 ≤ sPushUp.position_history.length ∧ sPushUp.gesture_cooldown = 0
        ∧ (sPushUp.detectPush 150).1 = true ∧ (sPushUp.detectPull 150).1 = false)
      ∧ (5 ≤ sPullUp.position_history.length ∧ sPullUp.gesture_cooldown = 0
        ∧ (sPullUp.detectPull 150).1 = true) :=
  ⟨⟨by decide, rfl,
    (push_pull_share_vertical_axis sPushUp 150 (by decide) rfl).1.mpr (by decide),
    by decide⟩,
   ⟨by decide, rfl,
    (push_pull_share_vertical_axis sPullUp 150 (by decide) rfl).2.1.mpr (by decide)⟩⟩

/-- C6: every failure-like condition — fewer than 5 samples (regardless
of content), displacement below threshold, active cooldown, or swipe
direction mismatch — yields the same indistinguishable negative result:
`none` for `detectSwipe`, `false` for `detectPush` and `detectPull`.
The detectors are total Lean functions, so no call raises. -/
theorem detectors_fail_silently (s : GestureRecognizer) (dir : String) (t : Int) :
    (s.position_history.length < 5 →
        (s.detectSwipe dir t).1 = none
          ∧ (s.detectPush t).1 = false ∧ (s.detectPull t).1 = false)
      ∧ (sqrtLt (s.dxOf * s.dxOf + s.dyOf * s.dyOf) t = true →
        (s.detectSwipe dir t).1 = none)
      ∧ (0 < s.gesture_cooldown →
        (s.detectSwipe dir t).1 = none
          ∧ (s.detectPush t).1 = false ∧ (s.detectPull t).1 = false)
      ∧ (dir ≠ "any" → dir ≠ s.detectedDirection → (s.detectSwipe dir t).1 = none)
      ∧ (s.dyOf ≤ t → (s.detectPush t).1 = false)
      ∧ (-t ≤ s.dyOf → (s.detectPull t).1 = false) := by
  have hlen : s.position_history.length < 5 →
      (s.detectSwipe dir t).1 = none
        ∧ (s.detectPush t).1 = false ∧ (s.detectPull t).1 = false := by
    intro h
    unfold GestureRecognizer.detectSwipe GestureRecognizer.detectPush
      GestureRecognizer.detectPull
    rw [if_pos h, if_pos h, if_pos h]
    exact ⟨rfl, rfl, rfl⟩
  have hdist : sqrtLt (s.dxOf * s.dxOf + s.dyOf * s.dyOf) t = true →
      (s.detectSwipe dir t).1 = none := by
    intro h
    unfold GestureRecognizer.detectSwipe
    split_ifs <;> simp_all
  have hc1 : 0 < s.gesture_cooldown → (s.detectSwipe dir t).1 = none := by
    intro h
    unfold GestureRecognizer.detectSwipe
    split_ifs <;> simp_all
  have hc2 : 0 < s.gesture_cooldown → (s.detectPush t).1 = false := by
    intro h
    unfold GestureRecognizer.detectPush
    split_ifs <;> simp_all
  have hc3 : 0 < s.gesture_cooldown → (s.detectPull t).1 = false := by
    intro h
    unfold GestureRecognizer.detectPull
    split_ifs <;> simp_all
  have hdirm : dir ≠ "any" → dir ≠ s.detectedDirection →
      (s.detectSwipe dir t).1 = none := by
    intro h1 h2
    unfold GestureRecognizer.detectSwipe
    split_ifs <;> simp_all
  have hp : s.dyOf ≤ t → (s.detectPush t).1 = false := by
    intro h
    unfold GestureRecognizer.detectPush
    split_ifs <;> simp_all
    omega
  have hq : -t ≤ s.dyOf → (s.detectPull t).1 = false := by
    intro h
    unfold GestureRecognizer.detectPull
    split_ifs <;> simp_all
    omega
  exact ⟨hlen, hdist, fun h => ⟨hc1 h, hc2 h, hc3 h⟩, hdirm, hp, hq⟩

/-- C6 at a concrete state: with only two samples every detector is
negative, even though the stored displacement is huge. -/
theorem detectors_fail_silently_witness :
    sShort.position_history.length < 5
      ∧ ((sShort.detectSwipe "any" 100).1 = none
        ∧ (sShort.detectPush 150).1 = false ∧ (sShort.detectPull 150).1 = false) :=
  ⟨by decide, (detectors_fail_silently sShort "any" 100).1 (by decide)⟩

/-- C7: detector calls never modify the history, a negative result
changes no state at all, and therefore repeating a detector call after a
negative result returns the same result again. -/
theorem detectors_read_only_on_failure (s : GestureRecognizer) (dir : String) (t : Int) :
    ((s.detectSwipe dir t).2.position_history = s.position_history
        ∧ (s.detectPush t).2.position_history = s.position_history
        ∧ (s.detectPull t).2.position_history = s.position_history)
      ∧ ((s.detectSwipe dir t).1 = none → (s.detectSwipe dir t).2 = s)
      ∧ ((s.detectPush t).1 = false → (s.detectPush t).2 = s)
      ∧ ((s.detectPull t).1 = false → (s.detectPull t).2 = s)
      ∧ ((s.detectSwipe dir t).1 = none →
        (s.detectSwipe dir t).2.detectSwipe dir t = s.detectSwipe dir t)
      ∧ ((s.detectPush t).1 = false →
        (s.detectPush t).2.detectPush t = s.detectPush t)
      ∧ ((s.detectPull t).1 = false →
        (s.detectPull t).2.detectPull t = s.detectPull t) := by
  have hswipe : (s.detectSwipe dir t).1 = none → (s.detectSwipe dir t).2 = s := by
    unfold GestureRecognizer.detectSwipe
    split_ifs <;> simp_all
  have hpush : (s.detectPush t).1 = false → (s.detectPush t).2 = s := by
    unfold GestureRecognizer.detectPush
    split_ifs <;> simp_all
  have hpull : (s.detectPull t).1 = false → (s.detectPull t).2 = s := by
    unfold GestureRecognizer.detectPull
    split_ifs <;> simp_all
  refine ⟨⟨?_, ?_, ?_⟩, hswipe, hpush, hpull,
    fun h => by rw [hswipe h], fun h => by rw [hpush h], fun h => by rw [hpull h]⟩
  · unfold GestureRecognizer.detectSwipe
    split_ifs <;> rfl
  · unfold GestureRecognizer.detectPush
    split_ifs <;> rfl
  · unfold GestureRecognizer.detectPull
    split_ifs <;> rfl

/-- C7 at a concrete state: with an active cooldown the swipe is
negative, the state is fully unchanged, and a repeated call returns the
same result. -/
theorem detectors_read_only_on_failure_witness :
    (sCool5.detectSwipe "any" 100).1 = none
      ∧ (sCool5.detectSwipe "any" 100).2.position_history = sCool5.position_history
      ∧ (sCool5.detectSwipe "any" 100).2 = sCool5
      ∧ (sCool5.detectSwipe "any" 100).2.detectSwipe "any" 100
        = sCool5.detectSwipe "any" 100 :=
  ⟨by decide,
   (detectors_read_only_on_failure sCool5 "any" 100).1.1,
   (detectors_read_only_on_failure sCool5 "any" 100).2.1 (by decide),
   (detectors_read_only_on_failure sCool5 "any" 100).2.2.2.2.1 (by decide)⟩

/-- C8 counterexample: `cooldown_frames` is not caller-supplied — the
constructor's only parameter is `history_size`, and no construction
yields a recognizer whose `cooldown_frames` differs from the hard-coded
15 (in particular none with `cooldown_frames = 20`). -/
theorem cooldown_frames_not_configurable :
    (GestureRecognizer.init 10).cooldown_frames = 15
      ∧ (GestureRecognizer.init 20).cooldown_frames = 15
      ∧ ¬ (∃ hs : Nat, (GestureRecognizer.init hs).cooldown_frames = 20) :=
  ⟨rfl, rfl, by
    rintro ⟨hs, h⟩
    simp [GestureRecognizer.init] at h⟩

/-- C8 amended: the constructor takes only `history_size` as
caller-supplied configuration; `cooldown_frames` is the fixed constant
15 for every construction, the history starts empty, and the cooldown
starts at 0 — no configuration comes from the environment or files. -/
theorem init_configuration (hs : Nat) :
    (GestureRecognizer.init hs).history_size = hs
      ∧ (GestureRecognizer.init hs).cooldown_frames = 15
      ∧ (GestureRecognizer.init hs).gesture_cooldown = 0
      ∧ (GestureRecognizer.init hs).position_history = []
      ∧ (GestureRecognizer.init hs).last_gesture = none :=
  ⟨rfl, rfl, rfl, rfl, rfl⟩

/-- C9 counterexample: a detector call that reports a gesture does not
record it — `detectSwipe` returns `right` on `sFiveR` while
`last_gesture` stays `none` rather than becoming `some "right"`. -/
theorem last_gesture_stale_after_swipe :
    (sFiveR.detectSwipe "any" 100).1 = some "right"
      ∧ (sFiveR.detectSwipe "any" 100).2.last_gesture = none
      ∧ (sFiveR.detectSwipe "any" 100).2.last_gesture ≠ some "right" := by
  refine ⟨by decide, by decide, by decide⟩

/-- C9 amended: `last_gesture` is initialized to `None` and never
written again — `update` and all three detectors leave it unchanged,
successful detections included. -/
theorem last_gesture_never_written (s : GestureRecognizer) (dir : String)
    (t : Int) (pos : Option Point) (n : Nat) :
    (s.detectSwipe dir t).2.last_gesture = s.last_gesture
      ∧ (s.detectPush t).2.last_gesture = s.last_gesture
      ∧ (s.detectPull t).2.last_gesture = s.last_gesture
      ∧ (s.update pos).1.last_gesture = s.last_gesture
      ∧ (GestureRecognizer.init n).last_gesture = none := by
  refine ⟨?_, ?_, ?_, ?_, rfl⟩
  · unfold GestureRecognizer.detectSwipe
    split_ifs <;> rfl
  · unfold GestureRecognizer.detectPush
    split_ifs <;> rfl
  · unfold GestureRecognizer.detectPull
    split_ifs <;> rfl
  · unfold GestureRecognizer.update
    rcases pos with _ | q <;> rfl

/-- C10: with at least 5 samples, cooldown 0, equal oldest and newest
points, and any threshold ≤ 0, `detectSwipe` with no direction filter
does not report "no gesture": the zero distance is not below the
threshold, the `dx = dy = 0` tie classifies as vertical with `dy` not
positive, and the call returns `up` and resets the cooldown. -/
theorem stationary_swipe_returns_up (s : GestureRecognizer) (t : Int)
    (h5 : 5 ≤ s.position_history.length)
    (hc : s.gesture_cooldown = 0)
    (heq : oldest s.position_history = newest s.position_history)
    (ht : t ≤ 0) :
    (s.detectSwipe "any" t).1 = some "up"
      ∧ (s.detectSwipe "any" t).2.gesture_cooldown = s.cooldown_frames := by
  have hdx : s.dxOf = 0 := by
    unfold GestureRecognizer.dxOf
    rw [heq]; ring
  have hdy : s.dyOf = 0 := by
    unfold GestureRecognizer.dyOf
    rw [heq]; ring
  unfold GestureRecognizer.detectSwipe
  rw [if_neg (by omega), if_neg (by simp [sqrtLt]; omega),
    if_pos (Or.inl rfl), if_pos hc]
  unfold GestureRecognizer.detectedDirection
  rw [hdx, hdy]
  norm_num

/-- C10 at a concrete state: five identical samples at `(7, 9)` with
threshold 0 yield the swipe `up` and reset the cooldown to 15. -/
theorem stationary_swipe_returns_up_witness :
    5 ≤ sStill.position_history.length
      ∧ sStill.gesture_cooldown = 0
      ∧ oldest sStill.position_history = newest sStill.position_history
      ∧ (0 : Int) ≤ 0
      ∧ (sStill.detectSwipe "any" 0).1 = some "up"
      ∧ (sStill.detectSwipe "any" 0).2.gesture_cooldown = sStill.cooldown_frames :=
  ⟨by decide, rfl, by decide, le_refl 0,
   (stationary_swipe_returns_up sStill 0 (by decide) rfl (by decide) (le_refl 0)).1,
   (stationary_swipe_returns_up sStill 0 (by decide) rfl (by decide) (le_refl 0)).2⟩

end AirSketch
